import Mathlib

/-!
Verification of the RankySwanky retrieval-evaluation library.

This file gives a shallow embedding, in Lean 4, of the parts of the
repository that the specification talks about:

* the domain models of `rankyswanky/models/retrieval_evaluation_models.py`
  (`RetrievedDocumentMetrics`, `RetrievedDocument`, `PerQueryRetrievalMetrics`,
  `AggregatedRetrievalMetrics`, `QueryResults`);
* the aggregation functions of `rankyswanky/utils/aggregated_metrics.py`;
* the builder of `rankyswanky/builders/query_results_builder.py`;
* the relevance evaluator of
  `rankyswanky/metrics/retrieved_document_metrics_validation_criteria.py`;
* the caching id strategies and upsert persistence of
  `rankyswanky/infrastructure/mapper_domain_to_caching_models.py` and
  `rankyswanky/adapters/persistence/pydantic_caching.py`.

Conventions of the embedding:

* Python `float` is modelled by `Rat` (all values produced by the code in
  scope are finite ratios of machine quantities);
* Python `None` is `Option.none`; code that can raise returns
  `Except String _` and a raised exception is `Except.error msg`;
* a Python `dict` is an insertion-ordered association list with unique keys
  (`dict_upsert` overwrites in place, like `d[k] = v`);
* LLM calls are oracles passed in as function parameters (the code treats
  their replies as opaque data); `sha256` hexdigest is likewise passed in as
  an opaque function parameter.
-/

/-! ## Python dict as an insertion-ordered association list -/

/-- Python `d[k] = v`: overwrite in place if the key exists, else append. -/
def dict_upsert {α : Type} : List (String × α) → String → α → List (String × α)
  | [], k, v => [(k, v)]
  | kv :: rest, k, v => if kv.1 = k then (k, v) :: rest else kv :: dict_upsert rest k v

/-- Python `d.get(k)`: first (unique) binding of the key, if any. -/
def dict_get? {α : Type} : List (String × α) → String → Option α
  | [], _ => none
  | kv :: rest, k => if kv.1 = k then some kv.2 else dict_get? rest k

/-- Python `d.get(k, dflt)`. -/
def dict_getD {α : Type} (d : List (String × α)) (k : String) (dflt : α) : α :=
  (dict_get? d k).getD dflt

/-! ## Domain models (`models/retrieval_evaluation_models.py`) -/

/-- `RELEVANCE_THRESHOLD = 0.5`. -/
def RELEVANCE_THRESHOLD : Rat := 1/2

/-- `RetrievedDocumentMetrics`: per-document relevance and novelty scores. -/
structure RetrievedDocumentMetrics where
  relevance : Rat
  novelty : Rat
deriving DecidableEq, Repr

/-- Computed field `RetrievedDocumentMetrics.is_relevant`:
`self.relevance > RELEVANCE_THRESHOLD`. -/
def RetrievedDocumentMetrics.is_relevant (m : RetrievedDocumentMetrics) : Bool :=
  m.relevance > RELEVANCE_THRESHOLD

/-- `PerQueryRetrievalMetrics`: aggregate metrics for one query. -/
structure PerQueryRetrievalMetrics where
  mean_relevance : Rat
  mean_novelty : Rat
  reciprocal_rank_of_first_relevant_document : Rat
deriving DecidableEq, Repr

/-- `RetrievalMetricsAtK`: metrics at a cutoff k (declared but never
populated by the code in scope).  The source field `recall` is spelled
`recall_at_k` here because `recall` is a reserved word in this Lean setup. -/
structure RetrievalMetricsAtK where
  precision : Rat
  recall_at_k : Rat
  f1_score : Rat
  mean_average_precision : Rat
  normalized_discounted_cumulative_gain : Rat
  normalized_cumulative_gain : Rat
deriving DecidableEq, Repr

/-- `AggregatedRetrievalMetrics`: run-level aggregate metrics.
`metrics_at_k` is a `dict[int, RetrievalMetricsAtK]`, modelled as an
association list over `Int` keys. -/
structure AggregatedRetrievalMetrics where
  mean_relevance : Rat
  mean_novelty : Rat
  mean_reciprocal_rank : Rat
  metrics_at_k : List (Int × RetrievalMetricsAtK)
deriving DecidableEq, Repr

/-- `RetrievedDocument`: content, rank, optional embedding, optional metrics. -/
structure RetrievedDocument where
  document_content : String
  rank : Int
  embedding_vector : List Rat
  retrieved_document_metrics : Option RetrievedDocumentMetrics
deriving DecidableEq, Repr

/-- `QueryResults`: one query with its ranked documents, optional per-query
metrics and the retrieval latency. -/
structure QueryResults where
  query : String
  retrieved_documents : List RetrievedDocument
  query_metrics : Option PerQueryRetrievalMetrics
  retrieval_time_ms : Int
deriving DecidableEq, Repr

/-! ## Aggregation functions (`utils/aggregated_metrics.py`) -/

/-- `calculate_mean_relevance`:
`sum(doc.relevance for doc in metrics) / len(metrics) if metrics else 0`. -/
def calculate_mean_relevance (metrics : List RetrievedDocumentMetrics) : Rat :=
  if metrics.isEmpty then 0
  else (metrics.map (fun doc => doc.relevance)).sum / (metrics.length : Rat)

/-- `calculate_mean_novelty`:
`sum(doc.novelty for doc in metrics) / len(metrics) if metrics else 0`. -/
def calculate_mean_novelty (metrics : List RetrievedDocumentMetrics) : Rat :=
  if metrics.isEmpty then 0
  else (metrics.map (fun doc => doc.novelty)).sum / (metrics.length : Rat)

/-- `calculate_reciprocal_rank_of_first_relevant_document`: scan the list in
order; on the first document with metrics attached (a pydantic model is
always truthy) whose `is_relevant` holds, return `1 / (doc.rank + 1)`;
return 0 if no such document exists. -/
def calculate_reciprocal_rank_of_first_relevant_document :
    List RetrievedDocument → Rat
  | [] => 0
  | doc :: rest =>
    match doc.retrieved_document_metrics with
    | some m =>
      if m.is_relevant then 1 / ((doc.rank : Rat) + 1)
      else calculate_reciprocal_rank_of_first_relevant_document rest
    | none => calculate_reciprocal_rank_of_first_relevant_document rest

/-- `calculate_mean_reciprocal_rank`: mean of each query's already computed
`query_metrics.reciprocal_rank_of_first_relevant_document`; 0 for the empty
list.  Dereferencing a missing `query_metrics` raises `AttributeError`. -/
def calculate_mean_reciprocal_rank (query_results : List QueryResults) :
    Except String Rat :=
  if query_results.isEmpty then .ok 0
  else if query_results.all (fun qr => qr.query_metrics.isSome) then
    .ok ((query_results.filterMap
            (fun qr => qr.query_metrics.map
              (fun qm => qm.reciprocal_rank_of_first_relevant_document))).sum
          / (query_results.length : Rat))
  else .error "AttributeError: NoneType object has no attribute reciprocal_rank_of_first_relevant_document"

/-- `calculate_per_query_retrieval_metrics`: raise `ValueError` unless every
document has metrics attached; otherwise aggregate the attached metrics. -/
def calculate_per_query_retrieval_metrics (documents : List RetrievedDocument) :
    Except String PerQueryRetrievalMetrics :=
  if documents.all (fun doc => doc.retrieved_document_metrics.isSome) then
    .ok
      { mean_relevance :=
          calculate_mean_relevance
            (documents.filterMap (fun doc => doc.retrieved_document_metrics))
        mean_novelty :=
          calculate_mean_novelty
            (documents.filterMap (fun doc => doc.retrieved_document_metrics))
        reciprocal_rank_of_first_relevant_document :=
          calculate_reciprocal_rank_of_first_relevant_document documents }
  else .error "All retrieved documents must have metrics to calculate per-query metrics."

/-- `calculate_aggregated_retrieval_metrics`: flatten all documents across
all queries, take the relevance/novelty means over the flattened metrics
list (an unguarded `doc.relevance` on a document without metrics raises
`AttributeError`), take the mean reciprocal rank over the stored per-query
values, and leave `metrics_at_k` as the empty mapping. -/
def calculate_aggregated_retrieval_metrics (query_results : List QueryResults) :
    Except String AggregatedRetrievalMetrics :=
  let retrieved_documents := (query_results.map
      (fun result => result.retrieved_documents)).flatten
  let optional_metrics := retrieved_documents.map
      (fun doc => doc.retrieved_document_metrics)
  if optional_metrics.isEmpty ∨ optional_metrics.all (fun om => om.isSome) then
    match calculate_mean_reciprocal_rank query_results with
    | .error e => .error e
    | .ok mrr =>
      .ok
        { mean_relevance := calculate_mean_relevance (optional_metrics.filterMap id)
          mean_novelty := calculate_mean_novelty (optional_metrics.filterMap id)
          mean_reciprocal_rank := mrr
          metrics_at_k := [] }
  else .error "AttributeError: NoneType object has no attribute relevance"

/-! ## QueryResultsBuilder (`builders/query_results_builder.py`) -/

/-- Python truthiness of `self.embeddings` / `self.metrics`: the value is
not `None` and the list is non-empty. -/
def optListTruthy {α : Type} : Option (List α) → Bool
  | none => false
  | some l => !l.isEmpty

/-- The mutable attributes of a `QueryResultsBuilder`. -/
structure BuilderState where
  query : Option String
  answer : Option String
  ranked_search_results : List String
  embeddings : Option (List (List Rat))
  metrics : Option (List RetrievedDocumentMetrics)
  retrieval_time_ms : Option Int
deriving DecidableEq, Repr

namespace QueryResultsBuilder

/-- `reset()`: the initial builder state (also established by `__init__`). -/
def reset : BuilderState :=
  { query := none, answer := none, ranked_search_results := []
    embeddings := none, metrics := none, retrieval_time_ms := none }

/-- `set_query`. -/
def set_query (st : BuilderState) (query : String) : Except String BuilderState :=
  .ok { st with query := some query }

/-- `set_answer`. -/
def set_answer (st : BuilderState) (answer : String) : Except String BuilderState :=
  .ok { st with answer := some answer }

/-- `set_ranked_search_results`: validate against any truthy embeddings and
metrics before assigning. -/
def set_ranked_search_results (st : BuilderState) (ranked_search_results : List String) :
    Except String BuilderState :=
  if optListTruthy st.embeddings ∧
      (st.embeddings.getD []).length ≠ ranked_search_results.length then
    .error "Ranked search results length must match the number of embeddings."
  else if optListTruthy st.metrics ∧
      (st.metrics.getD []).length ≠ ranked_search_results.length then
    .error "Ranked search results length must match the number of metrics."
  else .ok { st with ranked_search_results := ranked_search_results }

/-- `set_embeddings`: validate against truthy ranked results and metrics
before assigning. -/
def set_embeddings (st : BuilderState) (embeddings : List (List Rat)) :
    Except String BuilderState :=
  if st.ranked_search_results ≠ [] ∧
      st.ranked_search_results.length ≠ embeddings.length then
    .error "Embeddings length must match the number of ranked search results."
  else if optListTruthy st.metrics ∧
      (st.metrics.getD []).length ≠ embeddings.length then
    .error "Embeddings length must match the number of metrics."
  else .ok { st with embeddings := some embeddings }

/-- `set_metrics`: validate against truthy ranked results and embeddings
before assigning. -/
def set_metrics (st : BuilderState) (metrics : List RetrievedDocumentMetrics) :
    Except String BuilderState :=
  if st.ranked_search_results ≠ [] ∧
      st.ranked_search_results.length ≠ metrics.length then
    .error "Metrics length must match the number of ranked search results."
  else if optListTruthy st.embeddings ∧
      (st.embeddings.getD []).length ≠ metrics.length then
    .error "Metrics length must match the number of embeddings."
  else .ok { st with metrics := some metrics }

/-- `set_retrieval_time_ms`. -/
def set_retrieval_time_ms (st : BuilderState) (retrieval_time_ms : Int) :
    Except String BuilderState :=
  .ok { st with retrieval_time_ms := some retrieval_time_ms }

/-- The `search_results` list comprehension inside `build()`: enumerate the
ranked results, assigning `rank = i + 1` and looking up the parallel
embedding and metric entries when those lists are truthy. -/
def build_search_results (st : BuilderState) : List RetrievedDocument :=
  st.ranked_search_results.enum.map (fun ic =>
    { document_content := ic.2
      rank := (ic.1 : Int) + 1
      embedding_vector :=
        if optListTruthy st.embeddings then (st.embeddings.getD []).getD ic.1 []
        else []
      retrieved_document_metrics :=
        if optListTruthy st.metrics then (st.metrics.getD [])[ic.1]?
        else none })

/-- `build()`: fail if the query is unset or the ranked results are empty;
indexing a truthy parallel list that is shorter than the ranked results
raises `IndexError`; per-query metrics are computed exactly when the
metrics list is truthy. -/
def build (st : BuilderState) : Except String QueryResults :=
  match st.query with
  | none => .error "Query must be set before building the RetrievedDocumentsForQuery."
  | some q =>
    if st.ranked_search_results.isEmpty then
      .error "Ranked search results must be set before building the RetrievedDocumentsForQuery."
    else if optListTruthy st.embeddings ∧
        (st.embeddings.getD []).length < st.ranked_search_results.length then
      .error "IndexError: list index out of range"
    else if optListTruthy st.metrics ∧
        (st.metrics.getD []).length < st.ranked_search_results.length then
      .error "IndexError: list index out of range"
    else
      let search_results := build_search_results st
      if optListTruthy st.metrics then
        match calculate_per_query_retrieval_metrics search_results with
        | .error e => .error e
        | .ok qm =>
          .ok { query := q, retrieved_documents := search_results
                query_metrics := some qm
                retrieval_time_ms := st.retrieval_time_ms.getD 0 }
      else
        .ok { query := q, retrieved_documents := search_results
              query_metrics := none
              retrieval_time_ms := st.retrieval_time_ms.getD 0 }

end QueryResultsBuilder

/-- One client call to a `QueryResultsBuilder` setter. -/
inductive BuilderOp where
  | opSetQuery (query : String)
  | opSetAnswer (answer : String)
  | opSetRanked (ranked_search_results : List String)
  | opSetEmbeddings (embeddings : List (List Rat))
  | opSetMetrics (metrics : List RetrievedDocumentMetrics)
  | opSetRetrievalTime (retrieval_time_ms : Int)
deriving DecidableEq, Repr

/-- Dispatch one setter call. -/
def applyBuilderOp (st : BuilderState) : BuilderOp → Except String BuilderState
  | .opSetQuery q => QueryResultsBuilder.set_query st q
  | .opSetAnswer a => QueryResultsBuilder.set_answer st a
  | .opSetRanked rs => QueryResultsBuilder.set_ranked_search_results st rs
  | .opSetEmbeddings e => QueryResultsBuilder.set_embeddings st e
  | .opSetMetrics ms => QueryResultsBuilder.set_metrics st ms
  | .opSetRetrievalTime t => QueryResultsBuilder.set_retrieval_time_ms st t

/-- Run a sequence of setter calls from a given state; the first raised
validation error aborts the sequence. -/
def runBuilderOpsFrom (st : BuilderState) : List BuilderOp → Except String BuilderState
  | [] => .ok st
  | op :: rest =>
    match applyBuilderOp st op with
    | .error e => .error e
    | .ok st2 => runBuilderOpsFrom st2 rest

/-- Run a sequence of setter calls on a freshly constructed builder. -/
def runBuilderOps (ops : List BuilderOp) : Except String BuilderState :=
  runBuilderOpsFrom QueryResultsBuilder.reset ops

/-- The pairwise length-consistency invariant the setters enforce: any two
of ranked results / embeddings / metrics that are both truthy have equal
lengths. -/
def LengthsConsistent (st : BuilderState) : Prop :=
  (st.ranked_search_results ≠ [] → optListTruthy st.embeddings →
    (st.embeddings.getD []).length = st.ranked_search_results.length)
  ∧ (st.ranked_search_results ≠ [] → optListTruthy st.metrics →
    (st.metrics.getD []).length = st.ranked_search_results.length)
  ∧ (optListTruthy st.embeddings → optListTruthy st.metrics →
    (st.embeddings.getD []).length = (st.metrics.getD []).length)

/-! ## RelevanceEvaluator
(`metrics/retrieved_document_metrics_validation_criteria.py`) -/

/-- `CombinedOutput`: the rubric for a question — rewritten questions plus
the list of validation properties. -/
structure CombinedOutput where
  question : String
  perspective : String
  rewritten_questions : List String
  properties_of_a_good_document_containing_all_perspectives : List String
deriving DecidableEq, Repr

/-- The character U+0027 (single quote). -/
def squoteChar : Char := Char.ofNat 39

/-- The character U+0022 (double quote). -/
def dquoteChar : Char := Char.ofNat 34

/-- `_sanitize_property_name`: strip whitespace and dots, drop commas and
quotes, turn spaces into underscores, and replace every character outside
`[a-zA-Z0-9_-]` with an underscore. -/
def _sanitize_property_name (prop : String) : String :=
  let stripped := prop.toList
  let stripped := stripped.dropWhile Char.isWhitespace
  let stripped := (stripped.reverse.dropWhile Char.isWhitespace).reverse
  let stripped := stripped.dropWhile (fun c => c = '.')
  let stripped := (stripped.reverse.dropWhile (fun c => c = '.')).reverse
  let cleaned := stripped.filter (fun c =>
    c ≠ ',' ∧ c ≠ squoteChar ∧ c ≠ dquoteChar)
  let underscored := cleaned.map (fun c => if c = ' ' then '_' else c)
  String.mk (underscored.map (fun c =>
    if c.isAlphanum ∨ c = '_' ∨ c = '-' then c else '_'))

/-- An LLM judging oracle for `_evaluate_document_properties`: given the
question, the document content and one sanitized property name, the reply
assigns that property a boolean. -/
def JudgeOracle : Type := String → String → String → Bool

/-- `_evaluate_document_properties`: build the sanitized-name lookup dict
(later duplicates overwrite earlier ones), then obtain one boolean per
sanitized property name from the structured LLM reply.  The result models
the `EvaluatedValidationCriterias.evaluation` dict. -/
def _evaluate_document_properties (judge : JudgeOracle) (question : String)
    (properties : List String) (document : String) : List (String × Bool) :=
  let property_sanitized_lookup := properties.foldl
    (fun d prop => dict_upsert d (_sanitize_property_name prop) prop) []
  (property_sanitized_lookup.map (fun kv => kv.1)).map
    (fun k => (k, judge question document k))

/-- The mutable attributes of a `RelevanceEvaluator` (the LLM handle is an
oracle parameter instead of an attribute). -/
structure RelevanceEvaluatorState where
  question : String
  validation_criteria : Option CombinedOutput
  validation_criterias_met_history : List (String × Bool)
deriving DecidableEq, Repr

namespace RelevanceEvaluator

/-- `reset()`. -/
def reset : RelevanceEvaluatorState :=
  { question := "", validation_criteria := none
    validation_criterias_met_history := [] }

/-- `set_question`: reset, store the question, extract the validation
criteria (two LLM calls, modelled by the `rubricGen` oracle) and initialise
the met-history with every property mapped to `False`. -/
def set_question (rubricGen : String → CombinedOutput) (question : String) :
    RelevanceEvaluatorState :=
  let vc := rubricGen question
  { question := question
    validation_criteria := some vc
    validation_criterias_met_history :=
      vc.properties_of_a_good_document_containing_all_perspectives.foldl
        (fun d prop => dict_upsert d prop false) [] }

/-- The `count_of_met_criteria` loop counter of `_calculate_novelty` (and
`count_validation_criterias_met` of `EvaluatedValidationCriterias`): how
many evaluation entries are `True`. -/
def count_of_met_criteria (evaluated_criteria : List (String × Bool)) : Nat :=
  (evaluated_criteria.filter (fun kv => kv.2)).length

/-- The `newly_met_criteria_count` loop counter of `_calculate_novelty`:
how many evaluation entries are `True` while the history does not record
them as met (`self._validation_criterias_met_history.get(prop, False)`). -/
def newly_met_criteria_count (st : RelevanceEvaluatorState)
    (evaluated_criteria : List (String × Bool)) : Nat :=
  (evaluated_criteria.filter (fun kv =>
    kv.2 && !(dict_getD st.validation_criterias_met_history kv.1 false))).length

/-- `_calculate_novelty`: `None` if the evaluation dict is empty or no
criteria are loaded; otherwise (criteria newly met) / (criteria met), with
0 when no criterion is met. -/
def _calculate_novelty (st : RelevanceEvaluatorState)
    (evaluated_criteria : List (String × Bool)) : Option Rat :=
  if evaluated_criteria.isEmpty then none
  else if st.validation_criteria.isNone then none
  else
    some (if 0 < count_of_met_criteria evaluated_criteria then
            (newly_met_criteria_count st evaluated_criteria : Rat)
              / (count_of_met_criteria evaluated_criteria : Rat)
          else 0)

/-- `_update_validation_criterias_met_history`: mark every met key as met. -/
def _update_validation_criterias_met_history (st : RelevanceEvaluatorState)
    (evaluated_criteria : List (String × Bool)) : RelevanceEvaluatorState :=
  let updated := evaluated_criteria.foldl
    (fun d kv => if kv.2 then dict_upsert d kv.1 true else d)
    st.validation_criterias_met_history
  { st with validation_criterias_met_history := updated }

/-- `create_retrieved_document_metrics` (the `score` operation): return
`None` when no validation criteria are loaded (a pydantic model with an
empty property list is still truthy); evaluate the document, compute
`relevance = met / total` — a `ZeroDivisionError` when the evaluation dict
is empty — then novelty, then update the history.  Returns the optional
metrics together with the successor state. -/
def create_retrieved_document_metrics (judge : JudgeOracle)
    (st : RelevanceEvaluatorState) (context : String) :
    Except String (Option RetrievedDocumentMetrics × RelevanceEvaluatorState) :=
  match st.validation_criteria with
  | none => .ok (none, st)
  | some vc =>
    let evaluated_criteria := _evaluate_document_properties judge st.question
      vc.properties_of_a_good_document_containing_all_perspectives context
    if evaluated_criteria.isEmpty then
      .error "ZeroDivisionError: division by zero"
    else
      let relevance : Rat :=
        (count_of_met_criteria evaluated_criteria : Rat)
          / (evaluated_criteria.length : Rat)
      let novelty := _calculate_novelty st evaluated_criteria
      let st2 := _update_validation_criterias_met_history st evaluated_criteria
      .ok (some { relevance := relevance, novelty := novelty.getD 0 }, st2)

end RelevanceEvaluator

/-! ## Rubric caching (`infrastructure/mapper_domain_to_caching_models.py`,
`adapters/persistence/pydantic_caching.py`)

`sha256(...).hexdigest()` is modelled by an opaque parameter
`sha256hex : String → String`. -/

/-- `GenAndEvaluateQuestionParameters`: the persisted rubric row. -/
structure GenAndEvaluateQuestionParameters where
  id : String
  query_id : String
  perspective_id : String
  rewritten_questions : List String
  properties_of_a_good_document_containing_all_perspectives : List String
deriving DecidableEq, Repr

/-- `default_query_id_strategy`: sha256 hexdigest of the query text. -/
def default_query_id_strategy (sha256hex : String → String) (text : String) : String :=
  sha256hex text

/-- `default_perspective_id_strategy`: sha256 hexdigest of the perspective
text. -/
def default_perspective_id_strategy (sha256hex : String → String)
    (perspective_text : String) : String :=
  sha256hex perspective_text

/-- `default_gen_eval_id_strategy`: sha256 hexdigest of
`query_id + ":" + perspective_id`. -/
def default_gen_eval_id_strategy (sha256hex : String → String)
    (query_id perspective_id : String) : String :=
  sha256hex (query_id ++ ":" ++ perspective_id)

/-- `map_combined_output_to_gen_and_evaluate_params` with the default id
strategies: the primary key is derived from the question and perspective
texts, never supplied by the caller. -/
def map_combined_output_to_gen_and_evaluate_params (sha256hex : String → String)
    (combined : CombinedOutput) : GenAndEvaluateQuestionParameters :=
  let query_id := default_query_id_strategy sha256hex combined.question
  let perspective_id := default_perspective_id_strategy sha256hex combined.perspective
  let row_id := default_gen_eval_id_strategy sha256hex query_id perspective_id
  { id := row_id
    query_id := query_id
    perspective_id := perspective_id
    rewritten_questions := combined.rewritten_questions
    properties_of_a_good_document_containing_all_perspectives :=
      combined.properties_of_a_good_document_containing_all_perspectives }

/-- The rubric table of the SQLite database: rows keyed by primary key. -/
def GenEvalDb : Type := List (String × GenAndEvaluateQuestionParameters)

/-- `save_sqlmodels_to_db`: `session.merge` each model — an upsert by
primary key — then commit. -/
def save_sqlmodels_to_db (models : List GenAndEvaluateQuestionParameters)
    (db : GenEvalDb) : GenEvalDb :=
  models.foldl (fun d m => dict_upsert d m.id m) db

/-- `get_sqlmodel_by_primary_key`: `session.get(model, primary_key_value)`. -/
def get_sqlmodel_by_primary_key (db : GenEvalDb) (primary_key_value : String) :
    Option GenAndEvaluateQuestionParameters :=
  dict_get? db primary_key_value

/-! ## Concrete instances used to exercise the theorems -/

/-- A query result with no per-query metrics attached. -/
def qrNoMetrics : QueryResults :=
  { query := "q", retrieved_documents := [], query_metrics := none
    retrieval_time_ms := 0 }

/-- A relevant document at rank 1 carrying metrics. -/
def docRelevant : RetrievedDocument :=
  { document_content := "d", rank := 1, embedding_vector := []
    retrieved_document_metrics := some { relevance := 1, novelty := 0 } }

/-- A query result holding `docRelevant` with per-query metrics attached. -/
def qrWithMetrics : QueryResults :=
  { query := "q", retrieved_documents := [docRelevant]
    query_metrics := some { mean_relevance := 1, mean_novelty := 0
                            reciprocal_rank_of_first_relevant_document := 1/2 }
    retrieval_time_ms := 0 }

/-- An evaluator state whose loaded rubric has an empty property list. -/
def emptyRubricState : RelevanceEvaluatorState :=
  { question := "q"
    validation_criteria := some
      { question := "q", perspective := "p", rewritten_questions := []
        properties_of_a_good_document_containing_all_perspectives := [] }
    validation_criterias_met_history := [] }

/-- A rubric generator producing one single-word property. -/
def oneViewRubricGen (question : String) : CombinedOutput :=
  { question := question, perspective := "p", rewritten_questions := []
    properties_of_a_good_document_containing_all_perspectives := ["ItWorks"] }

/-- An LLM judge that declares every property satisfied. -/
def judgeAllTrue : JudgeOracle := fun _ _ _ => true

/-- A builder state holding a query, one ranked result and its metrics. -/
def builderStateWithMetrics : BuilderState :=
  { query := some "q", answer := none, ranked_search_results := ["a"]
    embeddings := none, metrics := some [{ relevance := 1, novelty := 0 }]
    retrieval_time_ms := none }

/-- A builder state holding a query and two ranked results, no metrics. -/
def builderStateTwoDocs : BuilderState :=
  { query := some "q", answer := none, ranked_search_results := ["a", "b"]
    embeddings := none, metrics := none, retrieval_time_ms := none }

/-- The query results that `build` produces from `builderStateTwoDocs`. -/
def queryResultsTwoDocs : QueryResults :=
  { query := "q"
    retrieved_documents :=
      [{ document_content := "a", rank := 1, embedding_vector := []
         retrieved_document_metrics := none },
       { document_content := "b", rank := 2, embedding_vector := []
         retrieved_document_metrics := none }]
    query_metrics := none
    retrieval_time_ms := 0 }

/-- A rubric cache entry. -/
def rubricV1 : CombinedOutput :=
  { question := "q", perspective := "p", rewritten_questions := ["r1"]
    properties_of_a_good_document_containing_all_perspectives := ["a"] }

/-- A second rubric cache entry for the same question and perspective but
with different content. -/
def rubricV2 : CombinedOutput :=
  { question := "q", perspective := "p", rewritten_questions := ["r2"]
    properties_of_a_good_document_containing_all_perspectives := ["b"] }

/-! ## Helper lemmas -/

theorem dict_get?_upsert_self {α : Type} (d : List (String × α)) (k : String) (v : α) :
    dict_get? (dict_upsert d k v) k = some v := by
  induction d with
  | nil => simp [dict_upsert, dict_get?]
  | cons kv rest ih =>
    by_cases h : kv.1 = k
    · simp [dict_upsert, dict_get?, h]
    · simp [dict_upsert, dict_get?, h, ih]

theorem dict_get?_mem {α : Type} (d : List (String × α)) (k : String) (v : α)
    (h : dict_get? d k = some v) : ∃ kv ∈ d, kv.2 = v := by
  induction d with
  | nil => simp [dict_get?] at h
  | cons kv rest ih =>
    by_cases hk : kv.1 = k
    · simp [dict_get?, hk] at h
      exact ⟨kv, List.mem_cons_self kv rest, h⟩
    · simp [dict_get?, hk] at h
      obtain ⟨kv2, hmem, hv⟩ := ih h
      exact ⟨kv2, List.mem_cons_of_mem kv hmem, hv⟩

theorem dict_getD_of_all_false (d : List (String × Bool))
    (h : ∀ kv ∈ d, kv.2 = false) (k : String) : dict_getD d k false = false := by
  unfold dict_getD
  cases hg : dict_get? d k with
  | none => rfl
  | some v =>
    obtain ⟨kv, hmem, hv⟩ := dict_get?_mem d k v hg
    simp [← hv, h kv hmem]

theorem dict_upsert_all_false (d : List (String × Bool)) (k : String)
    (h : ∀ kv ∈ d, kv.2 = false) :
    ∀ kv ∈ dict_upsert d k false, kv.2 = false := by
  induction d with
  | nil => simp [dict_upsert]
  | cons a rest ih =>
    by_cases ha : a.1 = k
    · intro kv hkv
      simp [dict_upsert, ha] at hkv
      rcases hkv with hkv | hkv
      · simp [hkv]
      · exact h kv (List.mem_cons_of_mem a hkv)
    · intro kv hkv
      simp only [dict_upsert, ha, if_false, List.mem_cons] at hkv
      rcases hkv with hkv | hkv
      · exact h kv (hkv ▸ List.mem_cons_self a rest)
      · exact ih (fun kv2 hkv2 => h kv2 (List.mem_cons_of_mem a hkv2)) kv hkv

theorem foldl_upsert_false_all_false (props : List String)
    (init : List (String × Bool)) (hinit : ∀ kv ∈ init, kv.2 = false) :
    ∀ kv ∈ props.foldl (fun d p => dict_upsert d p false) init, kv.2 = false := by
  induction props generalizing init with
  | nil => simpa using hinit
  | cons p rest ih =>
    simp only [List.foldl_cons]
    exact ih (dict_upsert init p false) (dict_upsert_all_false init p hinit)

theorem filter_and_length_le (l : List (String × Bool))
    (p q : String × Bool → Bool) :
    (l.filter (fun x => p x && q x)).length ≤ (l.filter p).length := by
  have hsub : List.Sublist (l.filter (fun x => p x && q x)) (l.filter p) :=
    List.monotone_filter_right l
      (by intro a ha; exact (Bool.and_eq_true _ _ |>.mp ha).1)
  exact hsub.length_le

theorem rat_mean_nonneg_and_le_one (l : List Rat) (hne : l ≠ [])
    (h0 : ∀ x ∈ l, 0 ≤ x) (h1 : ∀ x ∈ l, x ≤ 1) :
    0 ≤ l.sum / (l.length : Rat) ∧ l.sum / (l.length : Rat) ≤ 1 := by
  have hlen : (0 : Rat) < (l.length : Rat) := by
    exact_mod_cast List.length_pos.mpr hne
  constructor
  · exact div_nonneg (List.sum_nonneg h0) (le_of_lt hlen)
  · rw [div_le_one hlen]
    calc l.sum ≤ l.length • (1 : Rat) := List.sum_le_card_nsmul l 1 h1
    _ = (l.length : Rat) := by simp

/-- Bounds for the shared mean-of-a-projection shape of
`calculate_mean_relevance` / `calculate_mean_novelty`. -/
theorem mean_of_map_bounds (ms : List RetrievedDocumentMetrics)
    (f : RetrievedDocumentMetrics → Rat) (hb : ∀ m ∈ ms, 0 ≤ f m ∧ f m ≤ 1) :
    0 ≤ (if ms.isEmpty then 0 else (ms.map f).sum / (ms.length : Rat))
    ∧ (if ms.isEmpty then 0 else (ms.map f).sum / (ms.length : Rat)) ≤ 1 := by
  by_cases hne : ms = []
  · subst hne; simp
  · have hmapne : ms.map f ≠ [] := by simpa using hne
    have h := rat_mean_nonneg_and_le_one (ms.map f) hmapne
      (by intro x hx; obtain ⟨m, hm, rfl⟩ := List.mem_map.mp hx; exact (hb m hm).1)
      (by intro x hx; obtain ⟨m, hm, rfl⟩ := List.mem_map.mp hx; exact (hb m hm).2)
    rw [List.length_map] at h
    have hifr : (if ms.isEmpty then (0:Rat) else (ms.map f).sum / (ms.length : Rat))
        = (ms.map f).sum / (ms.length : Rat) := by
      rw [if_neg]
      simp [List.isEmpty_iff, hne]
    rw [hifr]
    exact h

/-! ## Claim theorems -/

/-- C1 (code bug evaluation): the claim — and the standard definition of
reciprocal rank — demands `1/rank` for the first relevant document, so a
relevant document at rank 1 must score 1; the source computes
`1 / (doc.rank + 1)` over the 1-based ranks assigned by the builder, so
`calculate_reciprocal_rank_of_first_relevant_document` returns 1/2 on a
single relevant document of rank 1. -/
theorem reciprocal_rank_uses_rank_plus_one :
    calculate_reciprocal_rank_of_first_relevant_document
        [{ document_content := "d", rank := 1, embedding_vector := [],
           retrieved_document_metrics := some { relevance := 1, novelty := 0 } }]
      = 1/2
    ∧ (1/2 : Rat) ≠ 1 := by
  constructor
  · have hrel : ({ relevance := 1, novelty := 0 } :
        RetrievedDocumentMetrics).is_relevant = true := by
      simp only [RetrievedDocumentMetrics.is_relevant, RELEVANCE_THRESHOLD,
        gt_iff_lt, decide_eq_true_eq]
      norm_num
    simp only [calculate_reciprocal_rank_of_first_relevant_document, hrel,
      if_true]
    norm_num
  · norm_num

/-- C3: `calculate_mean_relevance` and `calculate_mean_novelty` return 0 on
the empty list, return the arithmetic mean on a non-empty list, and stay
within [0,1] whenever every per-document value lies in [0,1]. -/
theorem mean_relevance_novelty_mean_and_bounds (ms : List RetrievedDocumentMetrics) :
    (calculate_mean_relevance [] = 0 ∧ calculate_mean_novelty [] = 0)
    ∧ (ms ≠ [] →
        calculate_mean_relevance ms
            = (ms.map (fun doc => doc.relevance)).sum / (ms.length : Rat)
        ∧ calculate_mean_novelty ms
            = (ms.map (fun doc => doc.novelty)).sum / (ms.length : Rat))
    ∧ ((∀ m ∈ ms, 0 ≤ m.relevance ∧ m.relevance ≤ 1) →
        0 ≤ calculate_mean_relevance ms ∧ calculate_mean_relevance ms ≤ 1)
    ∧ ((∀ m ∈ ms, 0 ≤ m.novelty ∧ m.novelty ≤ 1) →
        0 ≤ calculate_mean_novelty ms ∧ calculate_mean_novelty ms ≤ 1) := by
  refine ⟨⟨rfl, rfl⟩, ?_, ?_, ?_⟩
  · intro hne
    constructor <;>
      simp [calculate_mean_relevance, calculate_mean_novelty, List.isEmpty_iff, hne]
  · intro hb
    exact mean_of_map_bounds ms (fun doc => doc.relevance) hb
  · intro hb
    exact mean_of_map_bounds ms (fun doc => doc.novelty) hb

/-- C3 witness: on a concrete two-document list with in-range values the
mean lies in [0,1]. -/
theorem mean_relevance_novelty_mean_and_bounds_witness :
    0 ≤ calculate_mean_relevance
        [{ relevance := 1, novelty := 0 }, { relevance := 0, novelty := 1 }]
    ∧ calculate_mean_relevance
        [{ relevance := 1, novelty := 0 }, { relevance := 0, novelty := 1 }] ≤ 1 :=
  (mean_relevance_novelty_mean_and_bounds
      [{ relevance := 1, novelty := 0 }, { relevance := 0, novelty := 1 }]).2.2.1
    (by intro m hm
        simp only [List.mem_cons, List.not_mem_nil, or_false] at hm
        rcases hm with rfl | rfl <;> constructor <;> norm_num)

/-- C7: `calculate_per_query_retrieval_metrics` raises exactly when some
document lacks attached metrics, and otherwise returns the per-query
aggregate of the attached metrics. -/
theorem per_query_metrics_fail_fast_iff_missing (documents : List RetrievedDocument) :
    ((∃ e, calculate_per_query_retrieval_metrics documents = .error e)
        ↔ ∃ doc ∈ documents, doc.retrieved_document_metrics = none)
    ∧ ((∀ doc ∈ documents, doc.retrieved_document_metrics.isSome) →
        calculate_per_query_retrieval_metrics documents =
          .ok { mean_relevance := calculate_mean_relevance
                  (documents.filterMap (fun doc => doc.retrieved_document_metrics))
                mean_novelty := calculate_mean_novelty
                  (documents.filterMap (fun doc => doc.retrieved_document_metrics))
                reciprocal_rank_of_first_relevant_document :=
                  calculate_reciprocal_rank_of_first_relevant_document documents }) := by
  by_cases hall : documents.all (fun doc => doc.retrieved_document_metrics.isSome) = true
  · refine ⟨⟨?_, ?_⟩, ?_⟩
    · rintro ⟨e, he⟩
      simp [calculate_per_query_retrieval_metrics, hall] at he
    · rintro ⟨doc, hmem, hnone⟩
      have := List.all_eq_true.mp hall doc hmem
      simp [hnone] at this
    · intro _
      simp [calculate_per_query_retrieval_metrics, hall]
  · refine ⟨⟨?_, ?_⟩, ?_⟩
    · intro _
      have hex : ∃ doc ∈ documents, ¬ doc.retrieved_document_metrics.isSome = true := by
        by_contra hcon
        push_neg at hcon
        exact hall (List.all_eq_true.mpr hcon)
      obtain ⟨doc, hmem, hns⟩ := hex
      exact ⟨doc, hmem, Option.not_isSome_iff_eq_none.mp hns⟩
    · intro _
      refine ⟨"All retrieved documents must have metrics to calculate per-query metrics.", ?_⟩
      simp [calculate_per_query_retrieval_metrics, hall]
    · intro hfor
      exact absurd (List.all_eq_true.mpr hfor) hall

/-- C7 witness: a singleton list whose document carries metrics aggregates
without error, and a singleton list without metrics is in the error case of
the equivalence. -/
theorem per_query_metrics_fail_fast_iff_missing_witness :
    calculate_per_query_retrieval_metrics
        [{ document_content := "d", rank := 1, embedding_vector := [],
           retrieved_document_metrics := some { relevance := 1, novelty := 0 } }]
      = .ok { mean_relevance := calculate_mean_relevance
                [{ relevance := 1, novelty := 0 }]
              mean_novelty := calculate_mean_novelty
                [{ relevance := 1, novelty := 0 }]
              reciprocal_rank_of_first_relevant_document :=
                calculate_reciprocal_rank_of_first_relevant_document
                  [{ document_content := "d", rank := 1, embedding_vector := [],
                     retrieved_document_metrics := some { relevance := 1, novelty := 0 } }] }
    ∧ (∃ e, calculate_per_query_retrieval_metrics
        [{ document_content := "d", rank := 1, embedding_vector := [],
           retrieved_document_metrics := none }] = .error e) := by
  constructor
  · exact (per_query_metrics_fail_fast_iff_missing
        [{ document_content := "d", rank := 1, embedding_vector := [],
           retrieved_document_metrics := some { relevance := 1, novelty := 0 } }]).2
      (by intro doc hmem
          simp only [List.mem_cons, List.not_mem_nil, or_false] at hmem
          subst hmem
          rfl)
  · exact (per_query_metrics_fail_fast_iff_missing
        [{ document_content := "d", rank := 1, embedding_vector := [],
           retrieved_document_metrics := none }]).1.mpr
      ⟨_, List.mem_cons_self _ _, rfl⟩

/-- C8: the rubric cache primary key is derived from the question and
perspective texts as `hash(hash(question) + ":" + hash(perspective))`, so
two entries for the same pair share one record key, and saving both in
sequence is an upsert after which the second content is retrievable. -/
theorem rubric_cache_key_derived_and_upsert (sha256hex : String → String)
    (c1 c2 : CombinedOutput) (db : GenEvalDb)
    (hq : c1.question = c2.question) (hp : c1.perspective = c2.perspective) :
    (map_combined_output_to_gen_and_evaluate_params sha256hex c1).id
        = sha256hex (sha256hex c1.question ++ ":" ++ sha256hex c1.perspective)
    ∧ (map_combined_output_to_gen_and_evaluate_params sha256hex c1).id
        = (map_combined_output_to_gen_and_evaluate_params sha256hex c2).id
    ∧ get_sqlmodel_by_primary_key
        (save_sqlmodels_to_db [map_combined_output_to_gen_and_evaluate_params sha256hex c2]
          (save_sqlmodels_to_db [map_combined_output_to_gen_and_evaluate_params sha256hex c1] db))
        (map_combined_output_to_gen_and_evaluate_params sha256hex c2).id
      = some (map_combined_output_to_gen_and_evaluate_params sha256hex c2) := by
  refine ⟨rfl, ?_, ?_⟩
  · simp [map_combined_output_to_gen_and_evaluate_params,
      default_gen_eval_id_strategy, default_query_id_strategy,
      default_perspective_id_strategy, hq, hp]
  · show dict_get? (dict_upsert _ _ _) _ = _
    exact dict_get?_upsert_self _ _ _

/-- C8 witness: with the identity standing in for the hash, saving two
different rubric contents for the same (question, perspective) pair leaves
the second one retrievable under the shared derived key. -/
theorem rubric_cache_key_derived_and_upsert_witness :
    get_sqlmodel_by_primary_key
        (save_sqlmodels_to_db [map_combined_output_to_gen_and_evaluate_params (fun s => s) rubricV2]
          (save_sqlmodels_to_db [map_combined_output_to_gen_and_evaluate_params (fun s => s) rubricV1] []))
        (map_combined_output_to_gen_and_evaluate_params (fun s => s) rubricV2).id
      = some (map_combined_output_to_gen_and_evaluate_params (fun s => s) rubricV2) :=
  (rubric_cache_key_derived_and_upsert (fun s => s) rubricV1 rubricV2 [] rfl rfl).2.2

/-- C10: run-level aggregation silently assumes per-query metrics are
present: on any non-empty list containing a query without `query_metrics`,
`calculate_mean_reciprocal_rank` raises (dereferencing the missing
metrics), and `calculate_aggregated_retrieval_metrics` raises as well. -/
theorem run_aggregation_requires_query_metrics (qrs : List QueryResults)
    (hne : qrs ≠ []) (hmiss : ∃ qr ∈ qrs, qr.query_metrics = none) :
    (∃ e, calculate_mean_reciprocal_rank qrs = .error e)
    ∧ (∃ e, calculate_aggregated_retrieval_metrics qrs = .error e) := by
  have hall : qrs.all (fun qr => qr.query_metrics.isSome) = false := by
    obtain ⟨qr, hmem, hnone⟩ := hmiss
    cases hb : qrs.all (fun qr => qr.query_metrics.isSome) with
    | false => rfl
    | true =>
      have := List.all_eq_true.mp hb qr hmem
      simp [hnone] at this
  have hmrr : calculate_mean_reciprocal_rank qrs
      = .error "AttributeError: NoneType object has no attribute reciprocal_rank_of_first_relevant_document" := by
    simp [calculate_mean_reciprocal_rank, List.isEmpty_iff, hne, hall]
  refine ⟨⟨_, hmrr⟩, ?_⟩
  simp only [calculate_aggregated_retrieval_metrics]
  split
  · rw [hmrr]
    exact ⟨_, rfl⟩
  · exact ⟨_, rfl⟩

/-- C10 witness: one query result without per-query metrics makes both the
mean-reciprocal-rank step and the whole run aggregation raise. -/
theorem run_aggregation_requires_query_metrics_witness :
    (∃ e, calculate_mean_reciprocal_rank [qrNoMetrics] = .error e)
    ∧ (∃ e, calculate_aggregated_retrieval_metrics [qrNoMetrics] = .error e) :=
  run_aggregation_requires_query_metrics [qrNoMetrics]
    (List.cons_ne_nil _ _) ⟨qrNoMetrics, List.mem_cons_self _ _, rfl⟩

/-- C9: when every document carries metrics and every query carries
per-query metrics, the run-level aggregate takes the relevance and novelty
means over the flattened document list across all queries, takes the mean
reciprocal rank as the mean of the stored per-query reciprocal ranks (0 for
an empty query list) rather than recomputing it from the documents, and
leaves `metrics_at_k` empty. -/
theorem aggregated_flattens_and_reuses_reciprocal_rank (qrs : List QueryResults)
    (hdocs : ∀ qr ∈ qrs, ∀ doc ∈ qr.retrieved_documents,
      doc.retrieved_document_metrics.isSome)
    (hqm : ∀ qr ∈ qrs, qr.query_metrics.isSome) :
    ∃ agg, calculate_aggregated_retrieval_metrics qrs = .ok agg
      ∧ agg.mean_relevance = calculate_mean_relevance
          ((qrs.map (fun result => result.retrieved_documents)).flatten.filterMap
            (fun doc => doc.retrieved_document_metrics))
      ∧ agg.mean_novelty = calculate_mean_novelty
          ((qrs.map (fun result => result.retrieved_documents)).flatten.filterMap
            (fun doc => doc.retrieved_document_metrics))
      ∧ (qrs = [] → agg.mean_reciprocal_rank = 0)
      ∧ (qrs ≠ [] → agg.mean_reciprocal_rank
          = (qrs.filterMap (fun qr => qr.query_metrics.map
              (fun qm => qm.reciprocal_rank_of_first_relevant_document))).sum
            / (qrs.length : Rat))
      ∧ agg.metrics_at_k = [] := by
  have hallm : ((qrs.map (fun result => result.retrieved_documents)).flatten.map
      (fun doc => doc.retrieved_document_metrics)).all (fun om => om.isSome) = true := by
    apply List.all_eq_true.mpr
    intro om hom
    obtain ⟨doc, hdoc, rfl⟩ := List.mem_map.mp hom
    obtain ⟨l, hl, hdl⟩ := List.mem_flatten.mp hdoc
    obtain ⟨qr, hqr, rfl⟩ := List.mem_map.mp hl
    exact hdocs qr hqr doc hdl
  have hqall : qrs.all (fun qr => qr.query_metrics.isSome) = true :=
    List.all_eq_true.mpr hqm
  have hmrr : calculate_mean_reciprocal_rank qrs
      = .ok (if qrs = [] then 0
             else (qrs.filterMap (fun qr => qr.query_metrics.map
                 (fun qm => qm.reciprocal_rank_of_first_relevant_document))).sum
               / (qrs.length : Rat)) := by
    by_cases hne : qrs = []
    · subst hne; simp [calculate_mean_reciprocal_rank]
    · simp [calculate_mean_reciprocal_rank, List.isEmpty_iff, hne, hqall]
  refine ⟨{ mean_relevance := calculate_mean_relevance
              ((qrs.map (fun result => result.retrieved_documents)).flatten.filterMap
                (fun doc => doc.retrieved_document_metrics))
            mean_novelty := calculate_mean_novelty
              ((qrs.map (fun result => result.retrieved_documents)).flatten.filterMap
                (fun doc => doc.retrieved_document_metrics))
            mean_reciprocal_rank :=
              (if qrs = [] then 0
               else (qrs.filterMap (fun qr => qr.query_metrics.map
                   (fun qm => qm.reciprocal_rank_of_first_relevant_document))).sum
                 / (qrs.length : Rat))
            metrics_at_k := [] }, ?_, rfl, rfl, ?_, ?_, rfl⟩
  · simp only [calculate_aggregated_retrieval_metrics]
    rw [if_pos (Or.inr hallm), hmrr]
    have hfm : ((qrs.map (fun result => result.retrieved_documents)).flatten.map
          (fun doc => doc.retrieved_document_metrics)).filterMap id
        = (qrs.map (fun result => result.retrieved_documents)).flatten.filterMap
            (fun doc => doc.retrieved_document_metrics) := by
      rw [List.filterMap_map]
      rfl
    rw [hfm]
  · intro hne; rw [if_pos hne]
  · intro hne; rw [if_neg hne]

/-- C9 witness: a single query result with one scored document and stored
per-query metrics aggregates without error, with the stated components. -/
theorem aggregated_flattens_and_reuses_reciprocal_rank_witness :
    ∃ agg, calculate_aggregated_retrieval_metrics [qrWithMetrics] = .ok agg
      ∧ agg.mean_relevance = calculate_mean_relevance
          (([qrWithMetrics].map (fun result => result.retrieved_documents)).flatten.filterMap
            (fun doc => doc.retrieved_document_metrics))
      ∧ agg.mean_novelty = calculate_mean_novelty
          (([qrWithMetrics].map (fun result => result.retrieved_documents)).flatten.filterMap
            (fun doc => doc.retrieved_document_metrics))
      ∧ ([qrWithMetrics] = ([] : List QueryResults) → agg.mean_reciprocal_rank = 0)
      ∧ ([qrWithMetrics] ≠ ([] : List QueryResults) → agg.mean_reciprocal_rank
          = ([qrWithMetrics].filterMap (fun qr => qr.query_metrics.map
              (fun qm => qm.reciprocal_rank_of_first_relevant_document))).sum
            / (([qrWithMetrics] : List QueryResults).length : Rat))
      ∧ agg.metrics_at_k = [] :=
  aggregated_flattens_and_reuses_reciprocal_rank [qrWithMetrics]
    (by intro qr hqr doc hdoc
        simp only [List.mem_cons, List.not_mem_nil, or_false] at hqr
        subst hqr
        simp only [qrWithMetrics, docRelevant, List.mem_cons, List.not_mem_nil,
          or_false] at hdoc
        subst hdoc
        rfl)
    (by intro qr hqr
        simp only [List.mem_cons, List.not_mem_nil, or_false] at hqr
        subst hqr
        rfl)

/-- C2 counterexample: the claim says a loaded rubric with an empty
property list makes `create_retrieved_document_metrics` return the
unavailable sentinel `None`; in the source a loaded pydantic rubric is
always truthy, so scoring proceeds and `relevance = met / len(evaluation)`
raises `ZeroDivisionError` on the empty evaluation dict instead. -/
theorem score_empty_property_rubric_raises :
    RelevanceEvaluator.create_retrieved_document_metrics judgeAllTrue
        emptyRubricState "doc"
      = .error "ZeroDivisionError: division by zero" := rfl

/-- C2 (amended): `create_retrieved_document_metrics` returns the
unavailable sentinel `None` exactly when no rubric is loaded
(`_validation_criteria is None`); a loaded rubric whose property list is
empty instead raises `ZeroDivisionError` while computing relevance. -/
theorem score_unavailable_only_when_no_rubric (judge : JudgeOracle)
    (st : RelevanceEvaluatorState) (context : String) :
    (st.validation_criteria = none →
      RelevanceEvaluator.create_retrieved_document_metrics judge st context
        = .ok (none, st))
    ∧ (∀ vc, st.validation_criteria = some vc →
        vc.properties_of_a_good_document_containing_all_perspectives = [] →
        RelevanceEvaluator.create_retrieved_document_metrics judge st context
          = .error "ZeroDivisionError: division by zero") := by
  constructor
  · intro hnone
    simp [RelevanceEvaluator.create_retrieved_document_metrics, hnone]
  · intro vc hsome hprops
    simp [RelevanceEvaluator.create_retrieved_document_metrics, hsome,
      _evaluate_document_properties, hprops]

/-- C2 witness: on a freshly reset evaluator (no rubric loaded) scoring
returns the sentinel without touching the state. -/
theorem score_unavailable_only_when_no_rubric_witness :
    RelevanceEvaluator.create_retrieved_document_metrics judgeAllTrue
        RelevanceEvaluator.reset "doc"
      = .ok (none, RelevanceEvaluator.reset) :=
  (score_unavailable_only_when_no_rubric judgeAllTrue
      RelevanceEvaluator.reset "doc").1 rfl

open RelevanceEvaluator in
/-- C6: for every scored document, novelty is (properties satisfied for the
first time) / (properties satisfied), 0 when it satisfies none, hence never
above 1; and for the first document scored after `set_question` (history
all-false) novelty is exactly 1 when at least one property is satisfied. -/
theorem novelty_is_first_time_ratio (judge : JudgeOracle)
    (st : RelevanceEvaluatorState) (vc : CombinedOutput) (context : String)
    (m : RetrievedDocumentMetrics) (st2 : RelevanceEvaluatorState)
    (ev : List (String × Bool))
    (hvc : st.validation_criteria = some vc)
    (hev : ev = _evaluate_document_properties judge st.question
      vc.properties_of_a_good_document_containing_all_perspectives context)
    (hok : RelevanceEvaluator.create_retrieved_document_metrics judge st context
      = .ok (some m, st2)) :
    (0 < count_of_met_criteria ev →
      m.novelty = (newly_met_criteria_count st ev : Rat)
        / (count_of_met_criteria ev : Rat))
    ∧ (count_of_met_criteria ev = 0 → m.novelty = 0)
    ∧ m.novelty ≤ 1
    ∧ (∀ rubricGen q, st = RelevanceEvaluator.set_question rubricGen q →
        0 < count_of_met_criteria ev → m.novelty = 1) := by
  obtain ⟨q0, ovc, hist⟩ := st
  simp only at hvc
  subst hvc
  simp only at hev
  simp only [RelevanceEvaluator.create_retrieved_document_metrics, ← hev] at hok
  by_cases hemp : ev.isEmpty
  · simp [hemp] at hok
  · simp only [hemp, Bool.false_eq_true, if_false] at hok
    rw [Except.ok.injEq, Prod.mk.injEq, Option.some.injEq] at hok
    obtain ⟨hm, hst2⟩ := hok
    have hnov : m.novelty =
        (if 0 < count_of_met_criteria ev then
          (newly_met_criteria_count ⟨q0, some vc, hist⟩ ev : Rat)
            / (count_of_met_criteria ev : Rat)
        else 0) := by
      rw [← hm]
      simp [_calculate_novelty, hemp]
    refine ⟨?_, ?_, ?_, ?_⟩
    · intro hpos
      rw [hnov, if_pos hpos]
    · intro hzero
      rw [hnov, if_neg (by omega)]
    · rw [hnov]
      split
      · rename_i hpos
        have hle : newly_met_criteria_count ⟨q0, some vc, hist⟩ ev
            ≤ count_of_met_criteria ev :=
          filter_and_length_le ev (fun kv => kv.2)
            (fun kv => !(dict_getD hist kv.1 false))
        have hposr : (0 : Rat) < (count_of_met_criteria ev : Rat) := by
          exact_mod_cast hpos
        rw [div_le_one hposr]
        exact_mod_cast hle
      · norm_num
    · intro rubricGen q hst hpos
      have hhist : hist =
          (rubricGen q).properties_of_a_good_document_containing_all_perspectives.foldl
            (fun d p => dict_upsert d p false) [] :=
        congrArg RelevanceEvaluatorState.validation_criterias_met_history hst
      have hfalse : ∀ kv ∈ hist, kv.2 = false := by
        rw [hhist]
        exact foldl_upsert_false_all_false _ [] (by simp)
      have hcnt : newly_met_criteria_count ⟨q0, some vc, hist⟩ ev
          = count_of_met_criteria ev := by
        unfold newly_met_criteria_count count_of_met_criteria
        congr 1
        apply List.filter_congr
        intro kv _
        rw [show dict_getD hist kv.1 false = false from
          dict_getD_of_all_false hist hfalse kv.1]
        simp
      rw [hnov, if_pos hpos, hcnt, div_self]
      exact_mod_cast Nat.pos_iff_ne_zero.mp hpos

/-- C6 witness: the first document scored after `set_question`, satisfying
the single rubric property, gets novelty exactly 1. -/
theorem novelty_is_first_time_ratio_witness :
    RelevanceEvaluator.create_retrieved_document_metrics judgeAllTrue
        (RelevanceEvaluator.set_question oneViewRubricGen "q") "doc"
      = .ok (some { relevance := 1, novelty := 1 },
          { question := "q", validation_criteria := some (oneViewRubricGen "q")
            validation_criterias_met_history := [("ItWorks", true)] })
    ∧ ({ relevance := 1, novelty := 1 } : RetrievedDocumentMetrics).novelty = 1 := by
  have hst : RelevanceEvaluator.set_question oneViewRubricGen "q"
      = { question := "q", validation_criteria := some (oneViewRubricGen "q")
          validation_criterias_met_history := [("ItWorks", false)] } := rfl
  have hev2 : _evaluate_document_properties judgeAllTrue "q"
      (oneViewRubricGen "q").properties_of_a_good_document_containing_all_perspectives
      "doc" = [("ItWorks", true)] := rfl
  have hok : RelevanceEvaluator.create_retrieved_document_metrics judgeAllTrue
      (RelevanceEvaluator.set_question oneViewRubricGen "q") "doc"
      = .ok (some { relevance := 1, novelty := 1 },
          { question := "q", validation_criteria := some (oneViewRubricGen "q")
            validation_criterias_met_history := [("ItWorks", true)] }) := by
    rw [hst]
    simp only [RelevanceEvaluator.create_retrieved_document_metrics]
    norm_num [hev2, RelevanceEvaluator._calculate_novelty,
      RelevanceEvaluator.count_of_met_criteria,
      RelevanceEvaluator.newly_met_criteria_count,
      RelevanceEvaluator._update_validation_criterias_met_history,
      dict_getD, dict_get?, dict_upsert]
  refine ⟨hok, ?_⟩
  have := (novelty_is_first_time_ratio judgeAllTrue
      (RelevanceEvaluator.set_question oneViewRubricGen "q")
      (oneViewRubricGen "q") "doc"
      { relevance := 1, novelty := 1 }
      { question := "q", validation_criteria := some (oneViewRubricGen "q")
        validation_criterias_met_history := [("ItWorks", true)] }
      [("ItWorks", true)] rfl (by rw [hst]; exact hev2.symm) hok).2.2.2
    oneViewRubricGen "q" rfl (by decide)
  exact this

theorem reset_consistent : LengthsConsistent QueryResultsBuilder.reset := by
  refine ⟨?_, ?_, ?_⟩ <;> intro h1 h2 <;>
    simp [QueryResultsBuilder.reset, optListTruthy] at *

theorem applyBuilderOp_preserves_consistent (st : BuilderState) (op : BuilderOp)
    (st2 : BuilderState) (hinv : LengthsConsistent st)
    (hok : applyBuilderOp st op = .ok st2) : LengthsConsistent st2 := by
  obtain ⟨hre, hrm, hem⟩ := hinv
  cases op with
  | opSetQuery q =>
    simp only [applyBuilderOp, QueryResultsBuilder.set_query, Except.ok.injEq] at hok
    subst hok
    exact ⟨hre, hrm, hem⟩
  | opSetAnswer a =>
    simp only [applyBuilderOp, QueryResultsBuilder.set_answer, Except.ok.injEq] at hok
    subst hok
    exact ⟨hre, hrm, hem⟩
  | opSetRetrievalTime t =>
    simp only [applyBuilderOp, QueryResultsBuilder.set_retrieval_time_ms,
      Except.ok.injEq] at hok
    subst hok
    exact ⟨hre, hrm, hem⟩
  | opSetRanked rs =>
    simp only [applyBuilderOp, QueryResultsBuilder.set_ranked_search_results] at hok
    split at hok
    · exact absurd hok (by simp)
    · split at hok
      · exact absurd hok (by simp)
      · rename_i h1 h2
        rw [Except.ok.injEq] at hok
        subst hok
        push_neg at h1 h2
        exact ⟨fun _ hte => h1 hte, fun _ htm => h2 htm, hem⟩
  | opSetEmbeddings emb =>
    simp only [applyBuilderOp, QueryResultsBuilder.set_embeddings] at hok
    split at hok
    · exact absurd hok (by simp)
    · split at hok
      · exact absurd hok (by simp)
      · rename_i h1 h2
        rw [Except.ok.injEq] at hok
        subst hok
        push_neg at h1 h2
        refine ⟨?_, hrm, ?_⟩
        · intro hne _
          exact (h1 hne).symm
        · intro _ htm
          exact (h2 htm).symm
  | opSetMetrics ms =>
    simp only [applyBuilderOp, QueryResultsBuilder.set_metrics] at hok
    split at hok
    · exact absurd hok (by simp)
    · split at hok
      · exact absurd hok (by simp)
      · rename_i h1 h2
        rw [Except.ok.injEq] at hok
        subst hok
        push_neg at h1 h2
        refine ⟨hre, ?_, ?_⟩
        · intro hne _
          exact (h1 hne).symm
        · intro hte _
          exact h2 hte

theorem runBuilderOpsFrom_consistent (ops : List BuilderOp) (st0 st : BuilderState)
    (h0 : LengthsConsistent st0) (hrun : runBuilderOpsFrom st0 ops = .ok st) :
    LengthsConsistent st := by
  induction ops generalizing st0 with
  | nil =>
    simp only [runBuilderOpsFrom, Except.ok.injEq] at hrun
    subst hrun
    exact h0
  | cons op rest ih =>
    simp only [runBuilderOpsFrom] at hrun
    cases hop : applyBuilderOp st0 op with
    | error e => rw [hop] at hrun; exact absurd hrun (by simp)
    | ok st1 =>
      rw [hop] at hrun
      exact ih st1 (applyBuilderOp_preserves_consistent st0 op st1 h0 hop) hrun

theorem build_ok_of_consistent (st : BuilderState) (hinv : LengthsConsistent st)
    (hq : st.query ≠ none) (hr : st.ranked_search_results ≠ []) :
    ∃ qr, QueryResultsBuilder.build st = .ok qr := by
  obtain ⟨q, hq2⟩ := Option.ne_none_iff_exists'.mp hq
  have hne1 : ¬(optListTruthy st.embeddings = true
      ∧ (st.embeddings.getD []).length < st.ranked_search_results.length) := by
    rintro ⟨hte, hlt⟩
    rw [hinv.1 hr hte] at hlt
    exact lt_irrefl _ hlt
  have hne2 : ¬(optListTruthy st.metrics = true
      ∧ (st.metrics.getD []).length < st.ranked_search_results.length) := by
    rintro ⟨htm, hlt⟩
    rw [hinv.2.1 hr htm] at hlt
    exact lt_irrefl _ hlt
  simp only [QueryResultsBuilder.build, hq2]
  rw [if_neg (by simp [List.isEmpty_iff, hr]), if_neg hne1, if_neg hne2]
  by_cases hmt : optListTruthy st.metrics = true
  · rw [if_pos hmt]
    have hlen : (st.metrics.getD []).length = st.ranked_search_results.length :=
      hinv.2.1 hr hmt
    have hall : (QueryResultsBuilder.build_search_results st).all
        (fun doc => doc.retrieved_document_metrics.isSome) = true := by
      apply List.all_eq_true.mpr
      intro doc hdoc
      obtain ⟨ic, hic, rfl⟩ := List.mem_map.mp hdoc
      have hig : st.ranked_search_results[ic.1]? = some ic.2 :=
        List.mem_enum_iff_getElem?.mp hic
      have hilt : ic.1 < st.ranked_search_results.length :=
        (List.getElem?_eq_some.mp hig).1
      simp only [QueryResultsBuilder.build_search_results]
      rw [if_pos hmt, List.getElem?_eq_getElem (by rw [hlen]; exact hilt)]
      rfl
    simp only [calculate_per_query_retrieval_metrics, hall, if_true]
    exact ⟨_, rfl⟩
  · rw [if_neg hmt]
    exact ⟨_, rfl⟩

/-- C4: along any successful sequence of setter calls on a fresh builder,
`build` raises when the query is unset or the ranked results are empty; no
reached state has ranked results, embeddings and metrics all present with
differing lengths (the violating setter raises instead); and once the query
is set and the ranked results are non-empty, `build` succeeds. -/
theorem builder_validation_and_setter_invariant (ops : List BuilderOp)
    (st : BuilderState) (hrun : runBuilderOps ops = .ok st) :
    ((st.query = none ∨ st.ranked_search_results = []) →
      ∃ e, QueryResultsBuilder.build st = .error e)
    ∧ (st.ranked_search_results ≠ [] → optListTruthy st.embeddings →
        optListTruthy st.metrics →
        (st.embeddings.getD []).length = st.ranked_search_results.length
        ∧ (st.metrics.getD []).length = st.ranked_search_results.length)
    ∧ (st.query ≠ none → st.ranked_search_results ≠ [] →
        ∃ qr, QueryResultsBuilder.build st = .ok qr) := by
  have hinv : LengthsConsistent st :=
    runBuilderOpsFrom_consistent ops QueryResultsBuilder.reset st reset_consistent hrun
  refine ⟨?_, ?_, ?_⟩
  · intro hbad
    cases hq : st.query with
    | none =>
      simp only [QueryResultsBuilder.build, hq]
      exact ⟨_, rfl⟩
    | some q =>
      have hr : st.ranked_search_results = [] := by
        rcases hbad with hq2 | hr
        · rw [hq] at hq2; cases hq2
        · exact hr
      simp only [QueryResultsBuilder.build, hq]
      rw [if_pos (by simp [hr])]
      exact ⟨_, rfl⟩
  · intro hr hte htm
    exact ⟨hinv.1 hr hte, hinv.2.1 hr htm⟩
  · intro hq hr
    exact build_ok_of_consistent st hinv hq hr

/-- C4 witness: setting a query, one ranked result and one metric in
sequence reaches a state from which `build` succeeds. -/
theorem builder_validation_and_setter_invariant_witness :
    ∃ qr, QueryResultsBuilder.build builderStateWithMetrics = .ok qr :=
  (builder_validation_and_setter_invariant
      [BuilderOp.opSetQuery "q", BuilderOp.opSetRanked ["a"],
       BuilderOp.opSetMetrics [{ relevance := 1, novelty := 0 }]]
      builderStateWithMetrics rfl).2.2
    (by simp [builderStateWithMetrics]) (by simp [builderStateWithMetrics])

/-- C5: every successful `build` yields exactly one document per ranked
input, with rank `i + 1` in input-list order regardless of metric values,
content equal to the i-th ranked string, and metrics equal to the i-th
metrics entry when metrics are present. -/
theorem build_ranks_dense_in_input_order (st : BuilderState) (qr : QueryResults)
    (hok : QueryResultsBuilder.build st = .ok qr) :
    qr.retrieved_documents.length = st.ranked_search_results.length
    ∧ ∀ i : Nat, ∀ c : String, st.ranked_search_results[i]? = some c →
        ∃ d, qr.retrieved_documents[i]? = some d
          ∧ d.rank = (i : Int) + 1
          ∧ d.document_content = c
          ∧ d.retrieved_document_metrics =
              (if optListTruthy st.metrics then (st.metrics.getD [])[i]? else none) := by
  have hdocs : qr.retrieved_documents = QueryResultsBuilder.build_search_results st := by
    unfold QueryResultsBuilder.build at hok
    split at hok
    · exact absurd hok (by simp)
    split at hok
    · exact absurd hok (by simp)
    split at hok
    · exact absurd hok (by simp)
    split at hok
    · exact absurd hok (by simp)
    dsimp only at hok
    split at hok
    · split at hok
      · exact absurd hok (by simp)
      · rw [Except.ok.injEq] at hok
        subst hok
        rfl
    · rw [Except.ok.injEq] at hok
      subst hok
      rfl
  constructor
  · rw [hdocs]
    simp [QueryResultsBuilder.build_search_results, List.enum_length]
  · intro i c hc
    rw [hdocs]
    unfold QueryResultsBuilder.build_search_results
    rw [List.getElem?_map, List.getElem?_enum, hc]
    exact ⟨_, rfl, rfl, rfl, rfl⟩

/-- C5 witness: building from two ranked results and no metrics gives two
documents, and the second one sits at index 1 with rank 2, content "b" and
no metrics. -/
theorem build_ranks_dense_in_input_order_witness :
    ∃ d, queryResultsTwoDocs.retrieved_documents[1]? = some d
      ∧ d.rank = ((1 : Nat) : Int) + 1
      ∧ d.document_content = "b"
      ∧ d.retrieved_document_metrics =
          (if optListTruthy builderStateTwoDocs.metrics then
            (builderStateTwoDocs.metrics.getD [])[1]? else none) :=
  (build_ranks_dense_in_input_order builderStateTwoDocs queryResultsTwoDocs rfl).2
    1 "b" rfl
